import Mathlib

/-!
Verification of the multi-session transport registry, request dispatchers,
server-instance factory, stdio bootstrap and file cache of the
`mcp-dev-blueprints` repository.

The embedding mirrors the TypeScript source:

* the session registry (`transports` in `src/server/http_server/transport.ts`,
  reproduced in `docs/RESOURCES.md` lines 662-699) is a two-level,
  insertion-ordered map modelled as nested association lists, since a
  JavaScript plain object distinguishes an absent property from a property
  holding an empty object;
* `getTransport`, `createTransport`, the `onsessioninitialized` callback and
  the `transport.onclose` handler are translated statement by statement,
  including the lazy creation of the per-mount partition and the fact that a
  property write or `delete` on an `undefined` partition would throw
  (modelled with `Except`);
* the HTTP dispatchers `handlePost` / `handleDefault`
  (`src/features/tool.ts` lines 468-514) and the factory
  `initializeMcpServer` (`src/features/custom.ts` lines 63-72) are modelled
  as state transformers that additionally emit an event trace recording
  server creation, install-callback invocation, connect, token generation,
  session registration and request handling; the SDK transport's behaviour
  on an initialize message (generate a session id, fire
  `onsessioninitialized`) is an external capability and enters the model as
  the parameters `newSid` / `tid`;
* the file cache (`src/utils/file-utils.ts`) is modelled over an explicit
  file-system snapshot; its result carries a flag telling whether the disk
  was read, so that cache-hit behaviour is observable.
-/

set_option autoImplicit false

namespace MDB

universe u

variable {α : Type u}

/-- Lookup of a key in an insertion-ordered association list, returning the
first matching value; models reading a property of a JavaScript object. -/
def lookupKey (k : String) : List (String × α) → Option α
  | [] => none
  | (k', v) :: rest => if k' = k then some v else lookupKey k rest

/-- Write of a key in an insertion-ordered association list: an existing key
keeps its position, a new key is appended; models a JavaScript property
assignment. -/
def setKey (k : String) (v : α) : List (String × α) → List (String × α)
  | [] => [(k, v)]
  | (k', v') :: rest => if k' = k then (k, v) :: rest else (k', v') :: setKey k v rest

/-- Removal of a key from an association list; models the JavaScript
`delete` operator, which is a no-op on an absent key. -/
def eraseKey (k : String) : List (String × α) → List (String × α)
  | [] => []
  | (k', v') :: rest => if k' = k then eraseKey k rest else (k', v') :: eraseKey k rest

/-- Transports are external SDK objects; the model identifies a live
`StreamableHTTPServerTransport` by an opaque numeric handle. -/
abbrev TransportId := Nat

/-- One mount's partition of the registry: session id to live transport. -/
abbrev MountSessions := List (String × TransportId)

/-- The module-level `transports` object of `transport.ts`: a two-level map
keyed first by `mcp_server_id` (mount id) and then by session id.  An entry
`(m, [])` (a mount whose partition exists but is empty) is distinct from the
absence of `m`, exactly as for a JavaScript object. -/
abbrev Registry := List (String × MountSessions)

/-- Translation of `getTransport` from `transport.ts`: if the mount has no
partition yet, assign an empty object to it, then look the session id up in
the partition.  The function returns the updated registry together with the
lookup result, because the partition assignment mutates module state. -/
def getTransport (st : Registry) (m sid : String) : Registry × Option TransportId :=
  match lookupKey m st with
  | none => (setKey m [] st, none)
  | some sessions => (st, lookupKey sid sessions)

/-- Translation of the registry effect of `createTransport` from
`transport.ts`: initialize the partition for the mount if it does not exist.
The constructed transport object itself is external SDK state; its two
callbacks are modelled by `onSessionInitialized` and `onClose` below. -/
def createTransport (st : Registry) (m : String) : Registry :=
  match lookupKey m st with
  | none => setKey m [] st
  | some _ => st

/-- Translation of the `onsessioninitialized` callback installed by
`createTransport`: `transports[mcp_server_id][sessionId] = transport`.
If the partition for the mount were absent, the JavaScript property write on
`undefined` would throw, hence the `Except` result. -/
def onSessionInitialized (m sid : String) (tid : TransportId) (st : Registry) :
    Except String Registry :=
  match lookupKey m st with
  | none => .error "TypeError: cannot set properties of undefined"
  | some sessions => .ok (setKey m (setKey sid tid sessions) st)

/-- Translation of the `transport.onclose` handler from `transport.ts`:
`if (transport.sessionId) delete transports[mcp_server_id][transport.sessionId]`.
The optional argument is the transport's own session id, absent when the
session was never initialized.  A `delete` on an `undefined` partition would
throw, hence the `Except` result. -/
def onClose (m : String) (sid? : Option String) (st : Registry) :
    Except String Registry :=
  match sid? with
  | none => .ok st
  | some sid =>
    match lookupKey m st with
    | none => .error "TypeError: cannot convert undefined to object"
    | some sessions => .ok (setKey m (eraseKey sid sessions) st)

/-- Pure observation of the registry: the binding registered for a
`(mount, session)` pair, if any.  This is the side-effect-free lookup the
specification describes; `getTransport` computes the same answer but may
additionally create an empty partition. -/
def registeredTransport (st : Registry) (m sid : String) : Option TransportId :=
  match lookupKey m st with
  | none => none
  | some sessions => lookupKey sid sessions

/-- Observable events of the server-construction and request-handling flow. -/
inductive Ev where
  /-- Creation of `new McpServer({name, version})` in `initializeMcpServer`. -/
  | serverCreated : String → String → Ev
  /-- The `beforeConnect` install callback was invoked on the fresh server. -/
  | callbackInvoked : Ev
  /-- The call `server.connect(transport)` completed. -/
  | connected : Ev
  /-- The transport's session-id generator produced a token. -/
  | tokenGenerated : String → Ev
  /-- The `onsessioninitialized` callback registered a session. -/
  | sessionRegistered : String → Ev
  /-- A live transport's `handleRequest` was invoked. -/
  | requestHandled : TransportId → Ev
deriving DecidableEq

/-- Discriminator for server-creation events, used to count how many server
instances a run builds. -/
def Ev.isServerCreated : Ev → Bool
  | .serverCreated _ _ => true
  | _ => false

/-- Discriminator for install-callback invocations. -/
def Ev.isCallbackInvoked : Ev → Bool
  | .callbackInvoked => true
  | _ => false

/-- Translation of `initializeMcpServer` from `src/features/custom.ts`:
create a fresh `McpServer` carrying the given name and version `"1.0.0"`,
invoke `beforeConnect(server)` synchronously, then `await server.connect`.
The argument tells whether the install callback returns normally; when it
throws, the connect step is never reached.  The result is the emitted event
trace and whether the call completed without throwing. -/
def initializeMcpServer (server_name : String) (beforeConnectOk : Bool) :
    List Ev × Bool :=
  let created := [Ev.serverCreated server_name "1.0.0", Ev.callbackInvoked]
  if beforeConnectOk then (created ++ [Ev.connected], true) else (created, false)

/-- The JSON-RPC error object literal of the `handlePost` rejection response. -/
structure JsonRpcErrorObj where
  code : Int
  message : String
deriving DecidableEq

/-- The body passed to `res.status(400).json(...)` in `handlePost`. -/
structure PostRejectBody where
  jsonrpc : String
  error : JsonRpcErrorObj
  id : Option Int
deriving DecidableEq

/-- Character-wise body of `jsonEscape`, recursing over the characters. -/
def jsonEscapeChars : List Char → String
  | [] => ""
  | c :: rest =>
    (if c = '"' then "\\\"" else if c = '\\' then "\\\\" else String.singleton c)
      ++ jsonEscapeChars rest

/-- Escaping performed by `JSON.stringify` on the strings occurring here
(quotation marks and backslashes; no control characters appear). -/
def jsonEscape (s : String) : String :=
  jsonEscapeChars s.data

/-- Rendering of a `PostRejectBody` exactly as `JSON.stringify` serializes
the object literal of `handlePost` (insertion order of the keys). -/
def renderPostReject (b : PostRejectBody) : String :=
  "\x7b\"jsonrpc\":\"" ++ jsonEscape b.jsonrpc ++ "\",\"error\":\x7b\"code\":"
    ++ toString b.error.code ++ ",\"message\":\"" ++ jsonEscape b.error.message
    ++ "\"\x7d,\"id\":"
    ++ (match b.id with | none => "null" | some n => toString n)
    ++ "\x7d"

/-- The object literal sent by the rejection branch of `handlePost`. -/
def postErrorBody : PostRejectBody :=
  { jsonrpc := "2.0"
  , error := { code := -32000, message := "Bad Request: No valid session ID provided" }
  , id := none }

/-- Outcome of one `handlePost` invocation as seen by the HTTP client. -/
inductive PostResult where
  /-- Routed to an existing transport's `handleRequest`. -/
  | routed : TransportId → PostResult
  /-- Bootstrap succeeded; a new session with this token was registered. -/
  | newSession : String → PostResult
  /-- A response `res.status(status).json(body)` was sent. -/
  | rejected : Nat → PostRejectBody → PostResult
  /-- An exception escaped the handler to the HTTP layer. -/
  | errored : PostResult
deriving DecidableEq

/-- Translation of `handlePost` from `src/features/tool.ts` (lines 468-499).
Inputs beyond the registry state: the mount id, the optional
`mcp-session-id` header, whether `isInitializeRequest(req.body)` holds,
whether the `beforeConnect` install callback returns normally, and — for the
SDK transport, which is external — the session token its generator would
produce and the handle of the transport `createTransport` would build.  On
the bootstrap path the transport processes the initialize message inside
`handleRequest`: it generates the token and fires `onsessioninitialized`,
which stores the binding.  Returns the new registry, the outcome, and the
event trace. -/
def handlePost (m : String) (sid? : Option String) (isInit : Bool)
    (beforeConnectOk : Bool) (newSid : String) (tid : TransportId)
    (st : Registry) : Registry × PostResult × List Ev :=
  match sid? with
  | some sid =>
    let res1 := getTransport st m sid
    match res1.2 with
    | some _ =>
      let res2 := getTransport res1.1 m sid
      (res2.1, .routed (res2.2.getD 0), [Ev.requestHandled (res2.2.getD 0)])
    | none => (res1.1, .rejected 400 postErrorBody, [])
  | none =>
    if isInit then
      let st1 := createTransport st m
      let init := initializeMcpServer m beforeConnectOk
      if init.2 then
        match onSessionInitialized m newSid tid st1 with
        | .ok st2 =>
          (st2, .newSession newSid,
            init.1 ++ [Ev.tokenGenerated newSid, Ev.sessionRegistered newSid,
              Ev.requestHandled tid])
        | .error _ => (st1, .errored, init.1)
      else (st1, .errored, init.1)
    else (st, .rejected 400 postErrorBody, [])

/-- Outcome of one `handleDefault` (GET/DELETE) invocation. -/
inductive DefaultResult where
  /-- Routed to the existing transport's `handleRequest` (no body). -/
  | routed : TransportId → DefaultResult
  /-- A response `res.status(status).send(textBody)` was sent. -/
  | rejected : Nat → String → DefaultResult
deriving DecidableEq

/-- The `console.error` template literal of `handleDefault`; an absent
header renders as the string `undefined`, as in JavaScript. -/
def logInvalidSession (sid? : Option String) (m : String) : String :=
  "Invalid or missing session ID: "
    ++ (match sid? with | none => "undefined" | some sid => sid)
    ++ " for server: " ++ m

/-- Translation of `handleDefault` from `src/features/tool.ts`
(lines 501-514), covering the GET and DELETE routes.  Returns the registry,
the outcome, and the list of `console.error` diagnostics emitted. -/
def handleDefault (m : String) (sid? : Option String) (st : Registry) :
    Registry × DefaultResult × List String :=
  match sid? with
  | none =>
    (st, .rejected 400 "Invalid or missing session ID", [logInvalidSession none m])
  | some sid =>
    let res1 := getTransport st m sid
    match res1.2 with
    | none =>
      (res1.1, .rejected 400 "Invalid or missing session ID",
        [logInvalidSession (some sid) m])
    | some _ =>
      let res2 := getTransport res1.1 m sid
      (res2.1, .routed (res2.2.getD 0), [])

/-- The `ServerConfig` interface of `src/server/types.ts`. -/
structure ServerConfig where
  name : String
  path : String
  features : List String
deriving DecidableEq

/-- The merged configuration built by the stdio `start` function: names
joined with commas, path `/stdio`, features flat-mapped in configuration
order. -/
def mergedConfigOf (config : List ServerConfig) : ServerConfig :=
  { name := String.intercalate "," (config.map (fun c => c.name))
  , path := "/stdio"
  , features := config.flatMap (fun c => c.features) }

/-- Translation of the stdio `start` function: create the single
`StdioServerTransport` (which touches no registry and generates no token),
build the merged configuration, and run `initializeMcpServer` once on it
with the combined install callback.  The result is the full event trace of
the run. -/
def startStdio (config : List ServerConfig) : List Ev :=
  let mergedConfig := mergedConfigOf config
  (initializeMcpServer mergedConfig.name true).1

/-- Stat data of a file as returned by `statSync`: modification time in
milliseconds and size in bytes. -/
structure FileStat where
  mtimeMs : Int
  size : Nat
deriving DecidableEq

/-- A file on disk: its content together with its stat data. -/
structure FileData where
  content : String
  stat : FileStat
deriving DecidableEq

/-- Snapshot of the file system during one synchronous cache operation,
keyed by the exact (non-normalized) path handed to `statSync` and
`readFileSync`.  A case-sensitive file system may hold distinct files whose
paths differ only in letter case. -/
abbrev FileSystem := List (String × FileData)

/-- The `CacheEntry` interface of `src/utils/file-utils.ts`. -/
structure CacheEntry where
  content : String
  lastModified : Int
  size : Nat
deriving DecidableEq

/-- The `FileCache` class state: the insertion-ordered `Map` of entries and
the `maxSize` bound (default 100). -/
structure FileCache where
  cache : List (String × CacheEntry)
  maxSize : Nat
deriving DecidableEq

/-- Character-wise body of `replace(/\\/g, '/')`. -/
def replaceBackslashes : List Char → List Char
  | [] => []
  | c :: rest => (if c = '\\' then '/' else c) :: replaceBackslashes rest

/-- Character-wise body of `toLowerCase()` (ASCII model of the JavaScript
Unicode lowercasing; every path in this development is ASCII). -/
def lowerChars : List Char → List Char
  | [] => []
  | c :: rest => c.toLower :: lowerChars rest

/-- Translation of `FileCache.normalizePath`:
`filePath.replace(/\\/g, '/').toLowerCase()`. -/
def normalizePath (filePath : String) : String :=
  ⟨lowerChars (replaceBackslashes filePath.data)⟩

/-- Translation of the private `FileCache.set`: when the map already holds
`maxSize` entries, the first-inserted key is evicted (`keys().next().value`;
on an empty map that value is `undefined` and nothing is deleted), then the
entry is written under the given (already normalized) key. -/
def FileCache.set (fc : FileCache) (filePath content : String)
    (lastModified : Int) (size : Nat) : FileCache :=
  let pruned :=
    if fc.cache.length ≥ fc.maxSize then
      match fc.cache with
      | [] => fc.cache
      | (firstKey, _) :: _ => eraseKey firstKey fc.cache
    else fc.cache
  { fc with cache := setKey filePath ⟨content, lastModified, size⟩ pruned }

/-- Translation of `FileCache.get`: normalize the path for the cache key,
`statSync` the original path (a failure is wrapped into
`Failed to read file ...`), serve the cached content when the entry's
recorded modification time and size both equal the current stat, and
otherwise read the file from disk, store the fresh entry and return the
fresh content.  The middle component of the result records whether the disk
content was read (`true`) or the cached content was served (`false`). -/
def FileCache.get (fc : FileCache) (fs : FileSystem) (filePath : String) :
    Except String (String × Bool × FileCache) :=
  let normalizedPath := normalizePath filePath
  match lookupKey filePath fs with
  | none => .error ("Failed to read file " ++ filePath)
  | some fd =>
    match lookupKey normalizedPath fc.cache with
    | some cached =>
      if cached.lastModified = fd.stat.mtimeMs ∧ cached.size = fd.stat.size then
        .ok (cached.content, false, fc)
      else
        .ok (fd.content, true,
          fc.set normalizedPath fd.content fd.stat.mtimeMs fd.stat.size)
    | none =>
      .ok (fd.content, true,
        fc.set normalizedPath fd.content fd.stat.mtimeMs fd.stat.size)

/-- Translation of the exported `readFileWithCache`, which delegates to the
global cache instance's `get`. -/
def readFileWithCache (fc : FileCache) (fs : FileSystem) (filePath : String) :
    Except String (String × Bool × FileCache) :=
  FileCache.get fc fs filePath

theorem lookupKey_setKey_self (k : String) (v : α) (l : List (String × α)) :
    lookupKey k (setKey k v l) = some v := by
  induction l with
  | nil => simp [setKey, lookupKey]
  | cons hd tl ih =>
    obtain ⟨k', v'⟩ := hd
    by_cases h : k' = k
    · simp [setKey, h, lookupKey]
    · simp [setKey, h, lookupKey, ih]

theorem lookupKey_setKey_other {k k' : String} (hne : k' ≠ k) (v : α)
    (l : List (String × α)) :
    lookupKey k' (setKey k v l) = lookupKey k' l := by
  have hk' : ¬ k = k' := fun h => hne h.symm
  induction l with
  | nil => simp [setKey, lookupKey, hk']
  | cons hd tl ih =>
    obtain ⟨k₀, v₀⟩ := hd
    by_cases h : k₀ = k
    · simp [setKey, h, lookupKey, hk']
    · simp [setKey, h, lookupKey, ih]

theorem setKey_self_id {k : String} {v : α} {l : List (String × α)}
    (h : lookupKey k l = some v) : setKey k v l = l := by
  induction l with
  | nil => simp [lookupKey] at h
  | cons hd tl ih =>
    obtain ⟨k₀, v₀⟩ := hd
    by_cases hk : k₀ = k
    · subst hk
      simp [lookupKey] at h
      simp [setKey, h]
    · simp [lookupKey, hk] at h
      simp [setKey, hk, ih h]

theorem lookupKey_eraseKey_self (k : String) (l : List (String × α)) :
    lookupKey k (eraseKey k l) = none := by
  induction l with
  | nil => simp [eraseKey, lookupKey]
  | cons hd tl ih =>
    obtain ⟨k₀, v₀⟩ := hd
    by_cases hk : k₀ = k
    · simp [eraseKey, hk, ih]
    · simp [eraseKey, hk, lookupKey, ih]

theorem lookupKey_eraseKey_other {k k' : String} (hne : k' ≠ k)
    (l : List (String × α)) :
    lookupKey k' (eraseKey k l) = lookupKey k' l := by
  have hk' : ¬ k = k' := fun h => hne h.symm
  induction l with
  | nil => simp [eraseKey]
  | cons hd tl ih =>
    obtain ⟨k₀, v₀⟩ := hd
    by_cases hk : k₀ = k
    · simp [eraseKey, hk, lookupKey, ih, hk']
    · simp [eraseKey, hk, lookupKey, ih]

theorem eraseKey_absent {k : String} {l : List (String × α)}
    (h : lookupKey k l = none) : eraseKey k l = l := by
  induction l with
  | nil => simp [eraseKey]
  | cons hd tl ih =>
    obtain ⟨k₀, v₀⟩ := hd
    by_cases hk : k₀ = k
    · simp [lookupKey, hk] at h
    · simp [lookupKey, hk] at h
      simp [eraseKey, hk, ih h]

theorem eraseKey_eraseKey (k : String) (l : List (String × α)) :
    eraseKey k (eraseKey k l) = eraseKey k l :=
  eraseKey_absent (lookupKey_eraseKey_self k l)

theorem getTransport_snd (st : Registry) (m sid : String) :
    (getTransport st m sid).2 = registeredTransport st m sid := by
  unfold getTransport registeredTransport
  cases lookupKey m st <;> simp

/-- The registry state left by `getTransport` observes exactly like the
input state: no binding is added, removed or changed. -/
theorem registeredTransport_getTransport_fst (st : Registry) (m sid m' s' : String) :
    registeredTransport (getTransport st m sid).1 m' s' = registeredTransport st m' s' := by
  unfold getTransport
  cases h : lookupKey m st with
  | none =>
    by_cases hm : m' = m
    · subst hm
      simp [registeredTransport, lookupKey_setKey_self, h, lookupKey]
    · simp [registeredTransport, lookupKey_setKey_other hm]
  | some sessions => simp

/-- Likewise for the partition initialization performed by `createTransport`:
every `(mount, session)` observation is unchanged. -/
theorem registeredTransport_createTransport (st : Registry) (m m' s' : String) :
    registeredTransport (createTransport st m) m' s' = registeredTransport st m' s' := by
  unfold createTransport
  cases h : lookupKey m st with
  | none =>
    by_cases hm : m' = m
    · subst hm
      simp [registeredTransport, lookupKey_setKey_self, h, lookupKey]
    · simp [registeredTransport, lookupKey_setKey_other hm]
  | some sessions => simp

/-- After `createTransport`, the mount's partition always exists. -/
theorem lookupKey_createTransport_self (st : Registry) (m : String) :
    ∃ sessions, lookupKey m (createTransport st m) = some sessions := by
  unfold createTransport
  cases h : lookupKey m st with
  | none => exact ⟨[], lookupKey_setKey_self m [] st⟩
  | some sessions => exact ⟨sessions, h⟩

/-- Writing an entry always leaves that entry observable under its key,
whether or not an eviction took place. -/
theorem lookupKey_FileCache_set (fc : FileCache) (k c : String) (lm : Int) (sz : Nat) :
    lookupKey k (FileCache.set fc k c lm sz).cache = some ⟨c, lm, sz⟩ := by
  unfold FileCache.set
  exact lookupKey_setKey_self ..

theorem registeredTransport_setKey_other {m m' : String} (h : m' ≠ m)
    (sessions : MountSessions) (st : Registry) (s' : String) :
    registeredTransport (setKey m sessions st) m' s' = registeredTransport st m' s' := by
  unfold registeredTransport
  rw [lookupKey_setKey_other h]

/-- C1: registering a transport under `(M1, T)` through `createTransport`'s
`onsessioninitialized` callback makes `getTransport M1 T` return it, while
the lookup `getTransport M2 T` for any other mount `M2` observes exactly
what it observed before the registration — in particular it still returns
absent when `(M2, T)` was unregistered — because the registry is keyed by
`(mountId, token)`. -/
theorem mount_isolation_of_register (st : Registry) (M1 M2 T : String)
    (tid : TransportId) (hne : M1 ≠ M2) :
    ∃ st', onSessionInitialized M1 T tid (createTransport st M1) = .ok st' ∧
      (getTransport st' M2 T).2 = (getTransport st M2 T).2 ∧
      (getTransport st' M1 T).2 = some tid ∧
      ((getTransport st M2 T).2 = none → (getTransport st' M2 T).2 = none) := by
  obtain ⟨sessions, hs⟩ := lookupKey_createTransport_self st M1
  have hne' : M2 ≠ M1 := fun h => hne h.symm
  refine ⟨setKey M1 (setKey T tid sessions) (createTransport st M1), ?_, ?_, ?_, ?_⟩
  · simp only [onSessionInitialized, hs]
  · rw [getTransport_snd, getTransport_snd,
      registeredTransport_setKey_other hne', registeredTransport_createTransport]
  · rw [getTransport_snd]
    simp [registeredTransport, lookupKey_setKey_self]
  · intro h
    rw [getTransport_snd, registeredTransport_setKey_other hne',
      registeredTransport_createTransport, ← getTransport_snd]
    exact h

theorem mount_isolation_of_register_witness :
    ∃ st', onSessionInitialized "m1" "tok" 7 (createTransport ([] : Registry) "m1") = .ok st' ∧
      (getTransport st' "m2" "tok").2 = (getTransport ([] : Registry) "m2" "tok").2 ∧
      (getTransport st' "m1" "tok").2 = some 7 ∧
      ((getTransport ([] : Registry) "m2" "tok").2 = none →
        (getTransport st' "m2" "tok").2 = none) :=
  mount_isolation_of_register [] "m1" "m2" "tok" 7 (by decide)

/-- C6: invoking the `transport.onclose` removal path twice on the same
session yields the same registry state as invoking it once, and removing a
session that is absent from the mount's partition is a no-op that leaves
the state unchanged rather than an error.  The hypothesis that the mount's
partition exists holds whenever the handler can fire, since
`createTransport` creates the partition before installing the handler and
no operation ever deletes a partition. -/
theorem onClose_idempotent (st : Registry) (m : String) (sid? : Option String)
    (sessions : MountSessions) (hpart : lookupKey m st = some sessions) :
    ∃ st1, onClose m sid? st = .ok st1 ∧
      onClose m sid? st1 = .ok st1 ∧
      ((∀ sid, sid? = some sid → lookupKey sid sessions = none) → st1 = st) := by
  cases sid? with
  | none => exact ⟨st, rfl, rfl, fun _ => rfl⟩
  | some sid =>
    refine ⟨setKey m (eraseKey sid sessions) st, ?_, ?_, ?_⟩
    · simp only [onClose, hpart]
    · simp only [onClose, lookupKey_setKey_self, eraseKey_eraseKey]
      rw [setKey_self_id (lookupKey_setKey_self ..)]
    · intro h
      rw [eraseKey_absent (h sid rfl), setKey_self_id hpart]

theorem onClose_idempotent_witness :
    ∃ st1, onClose "demo" (some "zzz") [("demo", [("abc", 1)])] = .ok st1 ∧
      onClose "demo" (some "zzz") st1 = .ok st1 ∧
      ((∀ sid, (some "zzz" : Option String) = some sid →
          lookupKey sid [("abc", 1)] = none) → st1 = [("demo", [("abc", 1)])]) :=
  onClose_idempotent [("demo", [("abc", 1)])] "demo" (some "zzz") [("abc", 1)] (by decide)

/-- C7 counterexample: `getTransport` is not free of side effects on the
registry — queried on an empty registry it creates an empty partition for
the mount, so the state after the call differs from the state before. -/
theorem getTransport_mutates_state :
    (getTransport ([] : Registry) "demo" "abc").1 ≠ ([] : Registry) := by
  decide

/-- C7 amended: `getTransport` returns exactly the registered binding or
absent, and it changes no binding — every `(mount, session)` pair observes
the same transport before and after the call — although it may lazily
create an empty partition for the queried mount, so the raw registry state
is not always identical to the state before. -/
theorem getTransport_pure_observation (st : Registry) (m sid : String) :
    (getTransport st m sid).2 = registeredTransport st m sid ∧
    ∀ m' s', registeredTransport (getTransport st m sid).1 m' s' =
      registeredTransport st m' s' :=
  ⟨getTransport_snd st m sid,
    fun m' s' => registeredTransport_getTransport_fst st m sid m' s'⟩

/-- C2: a POST whose `mcp-session-id` header names a session unknown to the
registry is answered with the 400 rejection response; no session is created
(every registry observation is unchanged), the emitted trace is empty — in
particular the factory is never invoked — even when the body classifies as
an initialize message.  The bootstrap path requires the header to be absent:
with no header and a non-initialize body the request is likewise rejected. -/
theorem post_unknown_session_rejected (st : Registry) (m sid : String)
    (isInit beforeConnectOk : Bool) (newSid : String) (tid : TransportId)
    (habs : (getTransport st m sid).2 = none) :
    handlePost m (some sid) isInit beforeConnectOk newSid tid st
      = ((getTransport st m sid).1, .rejected 400 postErrorBody, []) ∧
    (∀ m' s',
      registeredTransport
        (handlePost m (some sid) isInit beforeConnectOk newSid tid st).1 m' s'
      = registeredTransport st m' s') ∧
    handlePost m none false beforeConnectOk newSid tid st
      = (st, .rejected 400 postErrorBody, []) := by
  have h1 : handlePost m (some sid) isInit beforeConnectOk newSid tid st
      = ((getTransport st m sid).1, .rejected 400 postErrorBody, []) := by
    simp only [handlePost, habs]
  refine ⟨h1, fun m' s' => ?_, rfl⟩
  rw [h1]
  exact registeredTransport_getTransport_fst st m sid m' s'

theorem post_unknown_session_rejected_witness :
    handlePost "demo" (some "ghost") true true "fresh" 5 ([] : Registry)
      = ((getTransport ([] : Registry) "demo" "ghost").1,
          .rejected 400 postErrorBody, []) ∧
    (∀ m' s',
      registeredTransport
        (handlePost "demo" (some "ghost") true true "fresh" 5 ([] : Registry)).1 m' s'
      = registeredTransport ([] : Registry) m' s') ∧
    handlePost "demo" none false true "fresh" 5 ([] : Registry)
      = (([] : Registry), .rejected 400 postErrorBody, []) :=
  post_unknown_session_rejected [] "demo" "ghost" true true "fresh" 5 (by decide)

/-- Inversion for the dispatcher: whenever `handlePost` produces a rejection
response, that response is the 400 status with the fixed JSON-RPC error
body — no other rejection is reachable in the code. -/
theorem handlePost_rejected_inv (m : String) (sid? : Option String)
    (isInit beforeConnectOk : Bool) (newSid : String) (tid : TransportId)
    (st : Registry) (status : Nat) (body : PostRejectBody)
    (h : (handlePost m sid? isInit beforeConnectOk newSid tid st).2.1
          = .rejected status body) :
    status = 400 ∧ body = postErrorBody := by
  cases sid? with
  | some sid =>
    cases hres : (getTransport st m sid).2 with
    | some t =>
      simp only [handlePost, hres] at h
      exact PostResult.noConfusion h
    | none =>
      simp only [handlePost, hres] at h
      injection h with h1 h2
      exact ⟨h1.symm, h2.symm⟩
  | none =>
    cases isInit with
    | false =>
      simp only [handlePost, Bool.false_eq_true, if_false] at h
      injection h with h1 h2
      exact ⟨h1.symm, h2.symm⟩
    | true =>
      cases beforeConnectOk with
      | false =>
        simp only [handlePost, initializeMcpServer] at h
        simp at h
      | true =>
        cases honi : onSessionInitialized m newSid tid (createTransport st m) with
        | ok st2 =>
          simp only [handlePost, initializeMcpServer, honi] at h
          simp at h
        | error e =>
          simp only [handlePost, initializeMcpServer, honi] at h
          simp at h

/-- C3: every rejection sent by `handlePost` carries HTTP status 400 and
serializes to exactly the specified JSON-RPC error envelope; `handleDefault`
answers a missing or unknown `mcp-session-id` header with status 400, the
plain-text body `Invalid or missing session ID`, and one `console.error`
diagnostic that records the (possibly absent) session id and the mount id. -/
theorem rejection_response_contract (m : String) (sid? : Option String)
    (isInit beforeConnectOk : Bool) (newSid : String) (tid : TransportId)
    (st : Registry) :
    (∀ status body,
      (handlePost m sid? isInit beforeConnectOk newSid tid st).2.1
          = .rejected status body →
        status = 400 ∧
        renderPostReject body
          = "\x7b\"jsonrpc\":\"2.0\",\"error\":\x7b\"code\":-32000,\"message\":\"Bad Request: No valid session ID provided\"\x7d,\"id\":null\x7d") ∧
    handleDefault m none st
      = (st, .rejected 400 "Invalid or missing session ID",
          [logInvalidSession none m]) ∧
    (∀ sid, (getTransport st m sid).2 = none →
      handleDefault m (some sid) st
        = ((getTransport st m sid).1,
            .rejected 400 "Invalid or missing session ID",
            [logInvalidSession (some sid) m])) ∧
    (∀ sid, logInvalidSession (some sid) m
        = "Invalid or missing session ID: " ++ sid ++ " for server: " ++ m) ∧
    logInvalidSession none m
      = "Invalid or missing session ID: undefined for server: " ++ m := by
  refine ⟨?_, rfl, ?_, fun sid => rfl, ?_⟩
  · intro status body h
    obtain ⟨h400, hbody⟩ :=
      handlePost_rejected_inv m sid? isInit beforeConnectOk newSid tid st status body h
    subst hbody
    exact ⟨h400, by decide⟩
  · intro sid habs
    simp only [handleDefault, habs]
  · rfl

theorem rejection_response_contract_witness :
    (400 = 400 ∧
      renderPostReject postErrorBody
        = "\x7b\"jsonrpc\":\"2.0\",\"error\":\x7b\"code\":-32000,\"message\":\"Bad Request: No valid session ID provided\"\x7d,\"id\":null\x7d") ∧
    handleDefault "demo" none []
      = (([] : Registry), .rejected 400 "Invalid or missing session ID",
          [logInvalidSession none "demo"]) :=
  ⟨(rejection_response_contract "demo" (some "x") true true "s" 0 []).1
      400 postErrorBody (by decide),
    (rejection_response_contract "demo" none true true "s" 0 []).2.1⟩

/-- C4: each `initializeMcpServer` call creates one fresh server carrying
the requested name and version `"1.0.0"`, invokes the `beforeConnect`
install callback exactly once on it, and connects to the caller-supplied
transport only after the callback has returned — the trace splits around a
unique `callbackInvoked` event, with the server creation before it and the
connect (when the callback does not throw) strictly after it, so no request
can reach the instance before the callback has run. -/
theorem factory_callback_once_before_connect (server_name : String)
    (beforeConnectOk : Bool) :
    ∃ pre post,
      (initializeMcpServer server_name beforeConnectOk).1
        = pre ++ Ev.callbackInvoked :: post ∧
      Ev.serverCreated server_name "1.0.0" ∈ pre ∧
      (pre ++ Ev.callbackInvoked :: post).countP Ev.isCallbackInvoked = 1 ∧
      Ev.connected ∉ pre ∧
      (beforeConnectOk = true → Ev.connected ∈ post) := by
  refine ⟨[Ev.serverCreated server_name "1.0.0"],
    if beforeConnectOk then [Ev.connected] else [], ?_, ?_, ?_, ?_, ?_⟩
  · cases beforeConnectOk <;> simp [initializeMcpServer]
  · simp
  · cases beforeConnectOk <;>
      simp [List.countP_cons, List.countP_append, Ev.isCallbackInvoked]
  · simp
  · intro h
    subst h
    simp

theorem factory_callback_once_before_connect_witness :
    ∃ pre post,
      (initializeMcpServer "srv" true).1 = pre ++ Ev.callbackInvoked :: post ∧
      Ev.serverCreated "srv" "1.0.0" ∈ pre ∧
      (pre ++ Ev.callbackInvoked :: post).countP Ev.isCallbackInvoked = 1 ∧
      Ev.connected ∉ pre ∧
      (true = true → Ev.connected ∈ post) :=
  factory_callback_once_before_connect "srv" true

/-- C5 counterexample: when the install callback throws during a bootstrap
request on a mount the registry has never seen, the registry state is NOT
unchanged — `createTransport` has already created an empty partition for
the mount before the callback ran. -/
theorem install_failure_changes_state :
    (handlePost "demo" none true false "s1" 0 ([] : Registry)).1 ≠ ([] : Registry) := by
  decide

/-- C5 amended: when the install callback throws during a bootstrap request,
no binding is registered — every `(mount, session)` registry observation is
unchanged, since registration happens only in `onsessioninitialized`, which
never fires — and the error escapes the handler to the HTTP layer; the
trace shows neither a session registration nor a connect.  However the
registry state is not literally unchanged: `createTransport` may have
created an empty partition for the mount. -/
theorem install_failure_no_binding (st : Registry) (m newSid : String)
    (tid : TransportId) :
    handlePost m none true false newSid tid st
      = (createTransport st m, .errored,
          [Ev.serverCreated m "1.0.0", Ev.callbackInvoked]) ∧
    (∀ m' s',
      registeredTransport (handlePost m none true false newSid tid st).1 m' s'
        = registeredTransport st m' s') ∧
    (∀ sid, Ev.sessionRegistered sid ∉ (handlePost m none true false newSid tid st).2.2) ∧
    Ev.connected ∉ (handlePost m none true false newSid tid st).2.2 := by
  have h1 : handlePost m none true false newSid tid st
      = (createTransport st m, .errored,
          [Ev.serverCreated m "1.0.0", Ev.callbackInvoked]) := by
    simp [handlePost, initializeMcpServer]
  refine ⟨h1, fun m' s' => ?_, fun sid => ?_, ?_⟩
  · rw [h1]
    exact registeredTransport_createTransport st m m' s'
  · rw [h1]
    simp
  · rw [h1]
    simp

theorem install_failure_no_binding_witness :
    handlePost "demo" none true false "s1" 0 ([] : Registry)
      = (createTransport [] "demo", .errored,
          [Ev.serverCreated "demo" "1.0.0", Ev.callbackInvoked]) ∧
    (∀ m' s',
      registeredTransport (handlePost "demo" none true false "s1" 0 ([] : Registry)).1 m' s'
        = registeredTransport ([] : Registry) m' s') ∧
    (∀ sid, Ev.sessionRegistered sid ∉
        (handlePost "demo" none true false "s1" 0 ([] : Registry)).2.2) ∧
    Ev.connected ∉ (handlePost "demo" none true false "s1" 0 ([] : Registry)).2.2 :=
  install_failure_no_binding [] "demo" "s1" 0

theorem getTransport_pure_observation_witness :
    (getTransport [("demo", [("abc", 3)])] "demo" "abc").2 =
      registeredTransport [("demo", [("abc", 3)])] "demo" "abc" ∧
    ∀ m' s', registeredTransport
        (getTransport [("demo", [("abc", 3)])] "demo" "abc").1 m' s' =
      registeredTransport [("demo", [("abc", 3)])] m' s' :=
  getTransport_pure_observation [("demo", [("abc", 3)])] "demo" "abc"

/-- C8: in stdio mode `start` builds exactly one server instance for the
process lifetime: its trace contains exactly one server creation — carrying
the comma-joined name of all configured mounts — the combined install
callback runs exactly once, the server is connected to the stdio transport,
and no session token is ever generated and no session is ever registered;
the merged feature list is the concatenation of every configured mount's
feature lists in configuration order. -/
theorem stdio_single_instance (config : List ServerConfig) :
    (startStdio config).countP Ev.isServerCreated = 1 ∧
    Ev.serverCreated (String.intercalate "," (config.map (fun c => c.name))) "1.0.0"
      ∈ startStdio config ∧
    (mergedConfigOf config).features = (config.map (fun c => c.features)).flatten ∧
    (startStdio config).countP Ev.isCallbackInvoked = 1 ∧
    Ev.connected ∈ startStdio config ∧
    (∀ sid, Ev.tokenGenerated sid ∉ startStdio config) ∧
    (∀ sid, Ev.sessionRegistered sid ∉ startStdio config) := by
  refine ⟨?_, ?_, ?_, ?_, ?_, ?_, ?_⟩
  · simp [startStdio, initializeMcpServer, List.countP_cons, Ev.isServerCreated]
  · simp [startStdio, initializeMcpServer, mergedConfigOf]
  · simp [mergedConfigOf, List.flatMap]
  · simp [startStdio, initializeMcpServer, List.countP_cons, Ev.isCallbackInvoked]
  · simp [startStdio, initializeMcpServer]
  · intro sid
    simp [startStdio, initializeMcpServer]
  · intro sid
    simp [startStdio, initializeMcpServer]

theorem stdio_single_instance_witness :
    (startStdio [⟨"alpha", "a", ["f1", "f2"]⟩, ⟨"beta", "b", ["f3"]⟩]).countP
        Ev.isServerCreated = 1 ∧
    Ev.serverCreated
        (String.intercalate ","
          ([⟨"alpha", "a", ["f1", "f2"]⟩, (⟨"beta", "b", ["f3"]⟩ : ServerConfig)].map
            (fun c => c.name))) "1.0.0"
      ∈ startStdio [⟨"alpha", "a", ["f1", "f2"]⟩, ⟨"beta", "b", ["f3"]⟩] ∧
    (mergedConfigOf [⟨"alpha", "a", ["f1", "f2"]⟩, ⟨"beta", "b", ["f3"]⟩]).features
      = ([⟨"alpha", "a", ["f1", "f2"]⟩, (⟨"beta", "b", ["f3"]⟩ : ServerConfig)].map
          (fun c => c.features)).flatten ∧
    (startStdio [⟨"alpha", "a", ["f1", "f2"]⟩, ⟨"beta", "b", ["f3"]⟩]).countP
        Ev.isCallbackInvoked = 1 ∧
    Ev.connected ∈ startStdio [⟨"alpha", "a", ["f1", "f2"]⟩, ⟨"beta", "b", ["f3"]⟩] ∧
    (∀ sid, Ev.tokenGenerated sid
        ∉ startStdio [⟨"alpha", "a", ["f1", "f2"]⟩, ⟨"beta", "b", ["f3"]⟩]) ∧
    (∀ sid, Ev.sessionRegistered sid
        ∉ startStdio [⟨"alpha", "a", ["f1", "f2"]⟩, ⟨"beta", "b", ["f3"]⟩]) :=
  stdio_single_instance [⟨"alpha", "a", ["f1", "f2"]⟩, ⟨"beta", "b", ["f3"]⟩]

/-- C9: for a readable file, `FileCache.get` serves the previously cached
content — without touching the disk — exactly when the cache holds an entry
for the normalized path whose recorded modification time and size both
equal the file's current stat; in every other case it reads the file from
disk, returns the fresh content and stores an entry carrying the fresh
content, modification time and size. -/
theorem file_cache_hit_iff (fc : FileCache) (fs : FileSystem) (p : String)
    (fd : FileData) (hstat : lookupKey p fs = some fd) :
    (∃ e, lookupKey (normalizePath p) fc.cache = some e ∧
        e.lastModified = fd.stat.mtimeMs ∧ e.size = fd.stat.size ∧
        FileCache.get fc fs p = .ok (e.content, false, fc)) ∨
    (FileCache.get fc fs p
        = .ok (fd.content, true,
            FileCache.set fc (normalizePath p) fd.content fd.stat.mtimeMs fd.stat.size) ∧
      lookupKey (normalizePath p)
          (FileCache.set fc (normalizePath p) fd.content
            fd.stat.mtimeMs fd.stat.size).cache
        = some ⟨fd.content, fd.stat.mtimeMs, fd.stat.size⟩ ∧
      ¬ ∃ e, lookupKey (normalizePath p) fc.cache = some e ∧
          e.lastModified = fd.stat.mtimeMs ∧ e.size = fd.stat.size) := by
  cases hc : lookupKey (normalizePath p) fc.cache with
  | some cached =>
    by_cases hv : cached.lastModified = fd.stat.mtimeMs ∧ cached.size = fd.stat.size
    · left
      exact ⟨cached, rfl, hv.1, hv.2, by simp only [FileCache.get, hstat, hc, if_pos hv]⟩
    · right
      refine ⟨by simp only [FileCache.get, hstat, hc, if_neg hv],
        lookupKey_FileCache_set .., ?_⟩
      rintro ⟨e, he, hlm, hsz⟩
      injection he with he'
      subst he'
      exact hv ⟨hlm, hsz⟩
  | none =>
    right
    refine ⟨by simp only [FileCache.get, hstat, hc], lookupKey_FileCache_set .., ?_⟩
    rintro ⟨e, he, _, _⟩
    exact Option.noConfusion he

theorem file_cache_hit_iff_witness :
    (∃ e, lookupKey (normalizePath "f.txt")
          (FileCache.mk [("f.txt", ⟨"cached", 10, 4⟩)] 100).cache = some e ∧
        e.lastModified = (FileData.mk "disk" ⟨10, 4⟩).stat.mtimeMs ∧
        e.size = (FileData.mk "disk" ⟨10, 4⟩).stat.size ∧
        FileCache.get (FileCache.mk [("f.txt", ⟨"cached", 10, 4⟩)] 100)
            [("f.txt", FileData.mk "disk" ⟨10, 4⟩)] "f.txt"
          = .ok (e.content, false, FileCache.mk [("f.txt", ⟨"cached", 10, 4⟩)] 100)) ∨
    (FileCache.get (FileCache.mk [("f.txt", ⟨"cached", 10, 4⟩)] 100)
          [("f.txt", FileData.mk "disk" ⟨10, 4⟩)] "f.txt"
        = .ok ((FileData.mk "disk" ⟨10, 4⟩).content, true,
            FileCache.set (FileCache.mk [("f.txt", ⟨"cached", 10, 4⟩)] 100)
              (normalizePath "f.txt") (FileData.mk "disk" ⟨10, 4⟩).content
              (FileData.mk "disk" ⟨10, 4⟩).stat.mtimeMs
              (FileData.mk "disk" ⟨10, 4⟩).stat.size) ∧
      lookupKey (normalizePath "f.txt")
          (FileCache.set (FileCache.mk [("f.txt", ⟨"cached", 10, 4⟩)] 100)
            (normalizePath "f.txt") (FileData.mk "disk" ⟨10, 4⟩).content
            (FileData.mk "disk" ⟨10, 4⟩).stat.mtimeMs
            (FileData.mk "disk" ⟨10, 4⟩).stat.size).cache
        = some ⟨(FileData.mk "disk" ⟨10, 4⟩).content,
            (FileData.mk "disk" ⟨10, 4⟩).stat.mtimeMs,
            (FileData.mk "disk" ⟨10, 4⟩).stat.size⟩ ∧
      ¬ ∃ e, lookupKey (normalizePath "f.txt")
            (FileCache.mk [("f.txt", ⟨"cached", 10, 4⟩)] 100).cache = some e ∧
          e.lastModified = (FileData.mk "disk" ⟨10, 4⟩).stat.mtimeMs ∧
          e.size = (FileData.mk "disk" ⟨10, 4⟩).stat.size) :=
  file_cache_hit_iff (FileCache.mk [("f.txt", ⟨"cached", 10, 4⟩)] 100)
    [("f.txt", FileData.mk "disk" ⟨10, 4⟩)] "f.txt"
    (FileData.mk "disk" ⟨10, 4⟩) (by decide)

/-- After a successful `FileCache.get`, the cache maps the normalized path
to an entry holding the returned content and the file's current stat,
whether the call was a hit or a miss. -/
theorem FileCache_get_entry (fc : FileCache) (fs : FileSystem) (p : String)
    (fd : FileData) (c : String) (rd : Bool) (fc1 : FileCache)
    (hstat : lookupKey p fs = some fd)
    (hget : FileCache.get fc fs p = .ok (c, rd, fc1)) :
    lookupKey (normalizePath p) fc1.cache
      = some ⟨c, fd.stat.mtimeMs, fd.stat.size⟩ := by
  cases hc : lookupKey (normalizePath p) fc.cache with
  | some cached =>
    by_cases hv : cached.lastModified = fd.stat.mtimeMs ∧ cached.size = fd.stat.size
    · simp only [FileCache.get, hstat, hc, if_pos hv, Except.ok.injEq,
        Prod.mk.injEq] at hget
      obtain ⟨hcc, _, hfc⟩ := hget
      subst hcc
      subst hfc
      rw [hc]
      cases cached
      simp only at hv ⊢
      rw [hv.1, hv.2]
    · simp only [FileCache.get, hstat, hc, if_neg hv, Except.ok.injEq,
        Prod.mk.injEq] at hget
      obtain ⟨hcc, _, hfc⟩ := hget
      subst hcc
      subst hfc
      exact lookupKey_FileCache_set ..
  | none =>
    simp only [FileCache.get, hstat, hc, Except.ok.injEq, Prod.mk.injEq] at hget
    obtain ⟨hcc, _, hfc⟩ := hget
    subst hcc
    subst hfc
    exact lookupKey_FileCache_set ..

/-- C10: the cache key is the normalized path (backslashes replaced by
forward slashes, letters lowercased), so two input paths with the same
normalization share one cache entry: after a `FileCache.get` of the first
path returned content `c1`, a `readFileWithCache` of the second path whose
file's current modification time and size match the shared entry serves
`c1` from the cache — even when the disk content under the second path
differs. -/
theorem cache_shared_key_cross_path (p1 p2 : String) (fc : FileCache)
    (fs : FileSystem) (fd1 fd2 : FileData) (c1 : String) (rd : Bool)
    (fc1 : FileCache)
    (hnorm : normalizePath p1 = normalizePath p2)
    (h1 : lookupKey p1 fs = some fd1)
    (hget : FileCache.get fc fs p1 = .ok (c1, rd, fc1))
    (h2 : lookupKey p2 fs = some fd2)
    (hmt : fd2.stat.mtimeMs = fd1.stat.mtimeMs)
    (hsz : fd2.stat.size = fd1.stat.size) :
    FileCache.get fc1 fs p2 = .ok (c1, false, fc1) ∧
    readFileWithCache fc1 fs p2 = .ok (c1, false, fc1) := by
  have hentry := FileCache_get_entry fc fs p1 fd1 c1 rd fc1 h1 hget
  rw [hnorm] at hentry
  have hmain : FileCache.get fc1 fs p2 = .ok (c1, false, fc1) := by
    simp only [FileCache.get, h2, hentry]
    rw [if_pos ⟨hmt.symm, hsz.symm⟩]
  exact ⟨hmain, hmain⟩

theorem cache_shared_key_cross_path_witness :
    FileCache.get
        (FileCache.mk [("dir/a.txt", ⟨"upper", 5, 5⟩)] 100)
        [("Dir\\A.TXT", FileData.mk "upper" ⟨5, 5⟩),
          ("dir/a.txt", FileData.mk "lower" ⟨5, 5⟩)] "dir/a.txt"
      = .ok ("upper", false, FileCache.mk [("dir/a.txt", ⟨"upper", 5, 5⟩)] 100) ∧
    readFileWithCache
        (FileCache.mk [("dir/a.txt", ⟨"upper", 5, 5⟩)] 100)
        [("Dir\\A.TXT", FileData.mk "upper" ⟨5, 5⟩),
          ("dir/a.txt", FileData.mk "lower" ⟨5, 5⟩)] "dir/a.txt"
      = .ok ("upper", false, FileCache.mk [("dir/a.txt", ⟨"upper", 5, 5⟩)] 100) :=
  cache_shared_key_cross_path "Dir\\A.TXT" "dir/a.txt"
    (FileCache.mk [] 100)
    [("Dir\\A.TXT", FileData.mk "upper" ⟨5, 5⟩),
      ("dir/a.txt", FileData.mk "lower" ⟨5, 5⟩)]
    (FileData.mk "upper" ⟨5, 5⟩) (FileData.mk "lower" ⟨5, 5⟩)
    "upper" true (FileCache.mk [("dir/a.txt", ⟨"upper", 5, 5⟩)] 100)
    (by decide) (by decide) (by rfl) (by decide) (by decide) (by decide)

end MDB
